import Mathlib

/-!
Shallow embedding of librdkafka's produce path (`src/rdkafka_msg.c`):
message construction (`rd_kafka_msg_new`), destruction
(`rd_kafka_msg_destroy`), the expiry sweep (`rd_kafka_msgq_age_scan`),
the default random partitioner (`rd_kafka_msg_partitioner_random`) and the
partition router (`rd_kafka_msg_partitioner`).

Machine state that the C code mutates (the process-wide admission counter
`rk_producer.msg_cnt` and the per-partition message queues) is threaded
explicitly as a `KState`.  The wall clock `rd_clock()` is passed in as a
`now : Int` parameter (microseconds).  External collaborators declared in
headers outside the given sources (the topic/partition registry, the
pluggable partitioner and the key-bytes constructor) are modelled as
fields of the topic record, or from the specification where noted.
-/

/-- Error codes returned through `errno` by `rd_kafka_msg_new`. -/
inductive Errno
  | EMSGSIZE
  | ENOBUFS
  | ESRCH
  | ENOENT
  | EINVAL
deriving DecidableEq, Repr

/-- Response errors the partitioner can hand back (`rd_kafka_resp_err_t`).
`OTHER` stands for every remaining code of the C enum; the router itself
only ever produces the first two. -/
inductive RespErr
  | UNKNOWN_PARTITION
  | UNKNOWN_TOPIC
  | OTHER
deriving DecidableEq, Repr

/-- Topic metadata state (`rkt_state`): `RD_KAFKA_TOPIC_S_UNKNOWN` before
any confirmed metadata, `RD_KAFKA_TOPIC_S_EXISTS` once metadata is known. -/
inductive TopicState
  | UNKNOWN
  | EXISTS
deriving DecidableEq, Repr

/-- Sentinel partition `RD_KAFKA_PARTITION_UA` (unassigned), -1 in C. -/
def RD_KAFKA_PARTITION_UA : Int := -1

/-- Message flags: `RD_KAFKA_MSG_F_FREE` (core frees the payload) and
`RD_KAFKA_MSG_F_COPY` (core makes a private copy of the payload). -/
structure MsgFlags where
  f_free : Bool
  f_copy : Bool
deriving DecidableEq, Repr

/-- Kafka bytes object (`rd_kafkap_bytes_t`): an owned private copy of the
key bytes together with its recorded length. -/
structure rd_kafkap_bytes_t where
  data : List Nat
  len : Nat
deriving DecidableEq, Repr

/-- Modelled from the spec: `rd_kafkap_bytes_new` is declared in a header
outside the given sources.  The spec states the Message "Always makes a
private copy of `key`" at construction; the constructor always yields a
key object, also when the caller passes no key (NULL pointer / length 0),
in which case the private copy is empty. -/
def rd_kafkap_bytes_new (key : Option (List Nat)) (keylen : Nat) : rd_kafkap_bytes_t :=
  match key with
  | some bs => { data := bs.take keylen, len := keylen }
  | none => { data := [], len := 0 }

/-- Where the payload buffer lives: `extPtr p` is the caller-provided
buffer at address `p` (borrowed or owned-transfer), `inRecord` is the
private copy placed directly after the message record by copy mode. -/
inductive PayloadLoc
  | extPtr (ptr : Nat)
  | inRecord
deriving DecidableEq, Repr

/-- The message record `rd_kafka_msg_t`. -/
structure rd_kafka_msg_t where
  rkm_len : Nat
  rkm_flags : MsgFlags
  rkm_opq : Nat
  rkm_key : Option rd_kafkap_bytes_t
  rkm_partition : Int
  rkm_ts_timeout : Int
  rkm_payload : PayloadLoc
deriving DecidableEq, Repr

/-- Payload ownership tri-state derived from the flags a constructed
message carries: `F_COPY` means a private copy, else `F_FREE` means the
core owns the caller's buffer, else the buffer is borrowed. -/
inductive Ownership
  | owned
  | borrowed
  | copied
deriving DecidableEq, Repr

/-- Ownership mode of a message, as `rd_kafka_msg_destroy` and the copy
logic of `rd_kafka_msg_new` interpret the flags. -/
def rd_kafka_msg_t.ownership (rkm : rd_kafka_msg_t) : Ownership :=
  if rkm.rkm_flags.f_copy then Ownership.copied
  else if rkm.rkm_flags.f_free then Ownership.owned
  else Ownership.borrowed

/-- Topic record together with the configuration and the external
collaborators the produce path reads: `rkt_state`, `rkt_partition_cnt` and
`rkt_ts_metadata` from the topic, `rk_conf` fields from the client, the
pluggable partitioner `rkt_conf.partitioner`, the availability check
`rd_kafka_topic_partition_available` and the partition lookup
`rd_kafka_toppar_get` (modelled as the predicate `toppar_exists`, true
when a partition reference resolves for the given index, including the
unassigned pseudo-partition). -/
structure rd_kafka_topic_t where
  rkt_state : TopicState
  rkt_partition_cnt : Int
  rkt_ts_metadata : Int
  max_msg_size : Nat
  queue_buffering_max_msgs : Nat
  message_timeout_ms : Int
  metadata_refresh_interval_ms : Int
  partitioner : List Nat → Nat → Int → Int
  partition_available : Int → Bool
  toppar_exists : Int → Bool

/-- Mutable producer state threaded through the embedding: the admission
counter `rk_producer.msg_cnt` and each partition's message queue (indexed
by partition number, `RD_KAFKA_PARTITION_UA` included). -/
structure KState where
  msg_cnt : Nat
  queues : Int → List rd_kafka_msg_t

/-- Record of what one `rd_kafka_msg_destroy` call frees: whether the
payload pointer was passed to `free` explicitly (the `F_FREE` branch),
whether the key object was destroyed, and whether the message record
itself was freed. -/
structure DestroyEffect where
  explicit_payload_free : Bool
  key_freed : Bool
  record_freed : Bool
deriving DecidableEq, Repr

/-- Lines 38-50: `rd_kafka_msg_destroy` decrements the admission counter
(the C code asserts it is positive first), frees the payload if `F_FREE`
is set, destroys the key object if present, and frees the record. -/
def rd_kafka_msg_destroy (st : KState) (rkm : rd_kafka_msg_t) : KState × DestroyEffect :=
  ({ st with msg_cnt := st.msg_cnt - 1 },
   { explicit_payload_free := rkm.rkm_flags.f_free,
     key_freed := rkm.rkm_key.isSome,
     record_freed := true })

/-- Whether destroying `rkm` with effect `eff` released the payload
buffer: a copy-mode payload lives inside the record allocation, so the
record free releases it; an external payload is released only by the
explicit `free(rkm->rkm_payload)` call. -/
def payloadBufferFreed (rkm : rd_kafka_msg_t) (eff : DestroyEffect) : Bool :=
  match rkm.rkm_payload with
  | PayloadLoc.inRecord => eff.record_freed
  | PayloadLoc.extPtr _ => eff.explicit_payload_free

/-- Message queue `rd_kafka_msgq_t`: the TAILQ of messages plus the
running count `rkmq_msg_cnt`. -/
structure rd_kafka_msgq_t where
  rkmq_msgs : List rd_kafka_msg_t
  rkmq_msg_cnt : Nat
deriving DecidableEq, Repr

/-- Modelled from the spec: `rd_kafka_msgq_enq` (header outside the given
sources) appends the message at the tail and bumps the count. -/
def rd_kafka_msgq_enq (rkmq : rd_kafka_msgq_t) (rkm : rd_kafka_msg_t) : rd_kafka_msgq_t :=
  { rkmq_msgs := rkmq.rkmq_msgs ++ [rkm], rkmq_msg_cnt := rkmq.rkmq_msg_cnt + 1 }

/-- Modelled from the spec: `rd_kafka_msgq_deq` (header outside the given
sources) unlinks the given message and subtracts `cnt` from the count. -/
def rd_kafka_msgq_deq (rkmq : rd_kafka_msgq_t) (rkm : rd_kafka_msg_t) (cnt : Nat) :
    rd_kafka_msgq_t :=
  { rkmq_msgs := rkmq.rkmq_msgs.erase rkm, rkmq_msg_cnt := rkmq.rkmq_msg_cnt - cnt }

/-- Loop body of `rd_kafka_msgq_age_scan`, lines 141-147: the
`TAILQ_FOREACH_SAFE` walk over a snapshot of the queue's messages; it
breaks at the first message with `rkm_ts_timeout > now` and otherwise
dequeues the message from `rkmq` and enqueues it on `timedout`. -/
def ageScanLoop (now : Int) (q t : rd_kafka_msgq_t) : List rd_kafka_msg_t →
    rd_kafka_msgq_t × rd_kafka_msgq_t
  | [] => (q, t)
  | rkm :: tmp =>
      if now < rkm.rkm_ts_timeout then (q, t)
      else ageScanLoop now (rd_kafka_msgq_deq q rkm 1) (rd_kafka_msgq_enq t rkm) tmp

/-- Lines 134-150: `rd_kafka_msgq_age_scan` records the timed-out queue's
count, runs the walk, and returns how much that count grew together with
the two updated queues. -/
def rd_kafka_msgq_age_scan (rkmq timedout : rd_kafka_msgq_t) (now : Int) :
    Int × rd_kafka_msgq_t × rd_kafka_msgq_t :=
  let cnt := timedout.rkmq_msg_cnt
  let r := ageScanLoop now rkmq timedout rkmq.rkmq_msgs
  ((r.2.rkmq_msg_cnt : Int) - (cnt : Int), r.1, r.2)

/-- Read of `rkm->rkm_key->data` as performed (unconditionally) by the
router when invoking the pluggable partitioner; the `none` fallback marks
the dereference that is undefined in C when the key object is missing. -/
def rkmKeyData (rkm : rd_kafka_msg_t) : List Nat :=
  match rkm.rkm_key with
  | some k => k.data
  | none => []

/-- Read of `RD_KAFKAP_BYTES_LEN(rkm->rkm_key)`, same caveat as
`rkmKeyData`. -/
def rkmKeyLen (rkm : rd_kafka_msg_t) : Nat :=
  match rkm.rkm_key with
  | some k => k.len
  | none => 0

/-- Lines 204-216: initial partition choice.  With no partitions known
the message goes to the unassigned sentinel; an unassigned message is
given to the pluggable partitioner; an application-forced partition is
used as-is. -/
def chooseInitialPartition (rkt : rd_kafka_topic_t) (rkm : rd_kafka_msg_t) : Int :=
  if rkt.rkt_partition_cnt = 0 then RD_KAFKA_PARTITION_UA
  else if rkm.rkm_partition = RD_KAFKA_PARTITION_UA then
    rkt.partitioner (rkmKeyData rkm) (rkmKeyLen rkm) rkt.rkt_partition_cnt
  else rkm.rkm_partition

/-- Lines 218-230: bounds re-check.  A chosen or forced index at or above
the partition count is demoted to the unassigned sentinel instead of
failing. -/
def boundsRecheck (rkt : rd_kafka_topic_t) (partition : Int) : Int :=
  if partition ≥ rkt.rkt_partition_cnt then RD_KAFKA_PARTITION_UA else partition

/-- Lines 242-263: look up a partition reference for the final index via
`rd_kafka_toppar_get`; with no reference the call fails with
`UNKNOWN_TOPIC` (topic state unknown) or `UNKNOWN_PARTITION`; with a
reference the message is enqueued on that partition's queue. -/
def resolveAndEnqueue (rkt : rd_kafka_topic_t) (rkm : rd_kafka_msg_t)
    (partition : Int) (st : KState) : Option RespErr × KState :=
  if rkt.toppar_exists partition then
    (none, { st with queues := fun i =>
      if i = partition then st.queues i ++ [rkm] else st.queues i })
  else
    (some (if rkt.rkt_state = TopicState.UNKNOWN then RespErr.UNKNOWN_TOPIC
           else RespErr.UNKNOWN_PARTITION), st)

/-- Lines 173-263: `rd_kafka_msg_partitioner`.  The fast-fail guard of
lines 188-202 fires when the topic state is unknown, or a forced non-UA
partition is at or above the partition count, provided the metadata is
still within three refresh intervals of now; it yields `UNKNOWN_TOPIC`
when no partitions are known and `UNKNOWN_PARTITION` otherwise.  Past the
guard the choice, re-check and lookup stages run. -/
def rd_kafka_msg_partitioner (rkt : rd_kafka_topic_t) (rkm : rd_kafka_msg_t)
    (now : Int) (st : KState) : Option RespErr × KState :=
  if (rkt.rkt_state = TopicState.UNKNOWN ∨
      (rkm.rkm_partition ≠ RD_KAFKA_PARTITION_UA ∧
       rkm.rkm_partition ≥ rkt.rkt_partition_cnt)) ∧
     now < rkt.rkt_ts_metadata + rkt.metadata_refresh_interval_ms * 3 * 1000 then
    (some (if rkt.rkt_partition_cnt = 0 then RespErr.UNKNOWN_TOPIC
           else RespErr.UNKNOWN_PARTITION), st)
  else
    resolveAndEnqueue rkt rkm (boundsRecheck rkt (chooseInitialPartition rkt rkm)) st

/-- Modelled from the spec: `rd_jitter` (header outside the given
sources) returns a uniformly random integer in `[low, high]`; the random
draw is threaded in as `rand`, every residue being reachable. -/
def rd_jitter (low high : Int) (rand : Nat) : Int :=
  low + (rand : Int) % (high - low + 1)

/-- Lines 156-166: the built-in random partitioner picks a random index
in `[0, partition_cnt)`; if that partition is not available it picks once
more and returns the second pick without checking it. -/
def rd_kafka_msg_partitioner_random (rkt : rd_kafka_topic_t)
    (key : List Nat) (keylen : Nat) (partition_cnt : Int) (r1 r2 : Nat) : Int :=
  let p := rd_jitter 0 (partition_cnt - 1) r1
  if !(rkt.partition_available p) then rd_jitter 0 (partition_cnt - 1) r2
  else p

/-- Lines 117-123: translation of partitioner error codes to errnos in
`rd_kafka_msg_new`; anything other than the two expected codes falls into
the `NOTREACHED` `EINVAL` branch. -/
def msg_new_errno_of (err : RespErr) : Errno :=
  match err with
  | RespErr.UNKNOWN_PARTITION => Errno.ESRCH
  | RespErr.UNKNOWN_TOPIC => Errno.ENOENT
  | RespErr.OTHER => Errno.EINVAL

/-- Lines 80-104: the message record `rd_kafka_msg_new` fills in once the
size and admission checks have passed.  Copy mode clears `F_FREE` and
places a private payload copy after the record; otherwise the record
points at the caller's buffer.  The key is always copied into a fresh
bytes object and the expiry deadline is `now` plus the configured
message timeout. -/
def producedMsg (rkt : rd_kafka_topic_t) (now : Int) (force_partition : Int)
    (msgflags : MsgFlags) (payload : Nat) (len : Nat)
    (key : Option (List Nat)) (keylen : Nat) (msg_opq : Nat) : rd_kafka_msg_t :=
  let flags1 := if msgflags.f_copy then { msgflags with f_free := false } else msgflags
  { rkm_len := len
    rkm_flags := flags1
    rkm_opq := msg_opq
    rkm_key := some (rd_kafkap_bytes_new key keylen)
    rkm_partition := force_partition
    rkm_ts_timeout := now + rkt.message_timeout_ms * 1000
    rkm_payload := if flags1.f_copy then PayloadLoc.inRecord else PayloadLoc.extPtr payload }

/-- Result of one `rd_kafka_msg_new` call: the C return value, the errno
it set (if any), the final machine state, the message record it malloc'd
(if any), and whether and how that record was destroyed before return. -/
structure ProduceResult where
  retval : Int
  errno : Option Errno
  st : KState
  allocated : Option rd_kafka_msg_t
  destroyed : Bool
  destroy_eff : Option DestroyEffect

/-- Lines 107-125: outcome of the synchronous partitioner call inside
`rd_kafka_msg_new`.  On success the call returns 0; on failure the
message is destroyed and the error code is translated to an errno. -/
def routeOutcome (rkt : rd_kafka_topic_t) (rkm : rd_kafka_msg_t) (now : Int)
    (st1 : KState) : ProduceResult :=
  match rd_kafka_msg_partitioner rkt rkm now st1 with
  | (none, st2) =>
      { retval := 0, errno := none, st := st2, allocated := some rkm,
        destroyed := false, destroy_eff := none }
  | (some err, st2) =>
      let r := rd_kafka_msg_destroy st2 rkm
      { retval := -1, errno := some (msg_new_errno_of err), st := r.1,
        allocated := some rkm, destroyed := true, destroy_eff := some r.2 }

/-- Width of `size_t` on the 64-bit platforms this code targets: a sum
of two `size_t` operands wraps modulo `2 ^ 64`. -/
def SIZE_T_MOD : Nat := 2 ^ 64

/-- Lines 58-126: `rd_kafka_msg_new`.  The size guard compares the
wrapping `size_t` sum `len + keylen` (both parameters are `size_t` at
lines 60-61) against the configured maximum and fails with `EMSGSIZE`
before anything is allocated or counted; the admission reservation
(atomic add, compare against the ceiling, atomic sub on failure) fails
with `ENOBUFS` leaving the counter as it was; otherwise the record is
built and handed to the partitioner. -/
def rd_kafka_msg_new (rkt : rd_kafka_topic_t) (now : Int) (force_partition : Int)
    (msgflags : MsgFlags) (payload : Nat) (len : Nat)
    (key : Option (List Nat)) (keylen : Nat) (msg_opq : Nat)
    (st : KState) : ProduceResult :=
  if (len + keylen) % SIZE_T_MOD > rkt.max_msg_size then
    { retval := -1, errno := some Errno.EMSGSIZE, st := st,
      allocated := none, destroyed := false, destroy_eff := none }
  else if st.msg_cnt + 1 > rkt.queue_buffering_max_msgs then
    { retval := -1, errno := some Errno.ENOBUFS, st := st,
      allocated := none, destroyed := false, destroy_eff := none }
  else
    routeOutcome rkt
      (producedMsg rkt now force_partition msgflags payload len key keylen msg_opq)
      now { st with msg_cnt := st.msg_cnt + 1 }

/-- A payload/key pair whose mathematical sum stays within the limit
does not wrap, so the size_t guard of line 67 admits it. -/
theorem size_check_passes (len keylen maxsize : Nat) (h : len + keylen ≤ maxsize) :
    ¬ (len + keylen) % SIZE_T_MOD > maxsize := by
  have := Nat.mod_le (len + keylen) SIZE_T_MOD
  omega

/-- The age-scan walk computes a takeWhile/dropWhile split of the queue:
it moves the longest expired head run to the tail of `t` and leaves the
rest of `q` in place, updating both counts accordingly. -/
theorem ageScanLoop_eq (now : Int) (msgs : List rd_kafka_msg_t) :
    ∀ q t : rd_kafka_msgq_t, q.rkmq_msgs = msgs →
      ageScanLoop now q t msgs =
        ({ rkmq_msgs := msgs.dropWhile (fun m => decide (m.rkm_ts_timeout ≤ now)),
           rkmq_msg_cnt := q.rkmq_msg_cnt -
             (msgs.takeWhile (fun m => decide (m.rkm_ts_timeout ≤ now))).length },
         { rkmq_msgs := t.rkmq_msgs ++
             msgs.takeWhile (fun m => decide (m.rkm_ts_timeout ≤ now)),
           rkmq_msg_cnt := t.rkmq_msg_cnt +
             (msgs.takeWhile (fun m => decide (m.rkm_ts_timeout ≤ now))).length }) := by
  induction msgs with
  | nil =>
      intro q t hq
      cases q with
      | mk qm qc =>
        cases t with
        | mk tm tc => simp_all [ageScanLoop]
  | cons rkm rest ih =>
      intro q t hq
      by_cases hc : now < rkm.rkm_ts_timeout
      · have hp : decide (rkm.rkm_ts_timeout ≤ now) = false := by
          simp [not_le.mpr hc]
        cases q with
        | mk qm qc =>
          cases t with
          | mk tm tc =>
            simp_all [ageScanLoop, hc, List.takeWhile_cons, List.dropWhile_cons, hp]
      · have hts : rkm.rkm_ts_timeout ≤ now := not_lt.mp hc
        have hp : decide (rkm.rkm_ts_timeout ≤ now) = true := by simp [hts]
        have hdq : rd_kafka_msgq_deq q rkm 1 =
            { rkmq_msgs := rest, rkmq_msg_cnt := q.rkmq_msg_cnt - 1 } := by
          simp [rd_kafka_msgq_deq, hq, List.erase_cons_head]
        have hrec := ih (rd_kafka_msgq_deq q rkm 1) (rd_kafka_msgq_enq t rkm) (by rw [hdq])
        simp only [ageScanLoop, if_neg hc]
        rw [hrec, hdq]
        simp only [rd_kafka_msgq_enq, List.takeWhile_cons, List.dropWhile_cons, hp,
          if_true, List.length_cons, Prod.mk.injEq, rd_kafka_msgq_t.mk.injEq,
          List.append_assoc, List.singleton_append, true_and, and_true]
        omega

/-- Closed form of `rd_kafka_msgq_age_scan` obtained from the loop
characterisation. -/
theorem rd_kafka_msgq_age_scan_eq (rkmq timedout : rd_kafka_msgq_t) (now : Int) :
    rd_kafka_msgq_age_scan rkmq timedout now =
      (((rkmq.rkmq_msgs.takeWhile (fun m => decide (m.rkm_ts_timeout ≤ now))).length : Int),
       { rkmq_msgs := rkmq.rkmq_msgs.dropWhile (fun m => decide (m.rkm_ts_timeout ≤ now)),
         rkmq_msg_cnt := rkmq.rkmq_msg_cnt -
           (rkmq.rkmq_msgs.takeWhile (fun m => decide (m.rkm_ts_timeout ≤ now))).length },
       { rkmq_msgs := timedout.rkmq_msgs ++
           rkmq.rkmq_msgs.takeWhile (fun m => decide (m.rkm_ts_timeout ≤ now)),
         rkmq_msg_cnt := timedout.rkmq_msg_cnt +
           (rkmq.rkmq_msgs.takeWhile (fun m => decide (m.rkm_ts_timeout ≤ now))).length }) := by
  unfold rd_kafka_msgq_age_scan
  rw [ageScanLoop_eq now rkmq.rkmq_msgs rkmq timedout rfl]
  simp only [Prod.mk.injEq, true_and, and_true]
  push_cast
  ring_nf
  try rfl
  try omega

/-- Under non-decreasing deadlines the expired messages form exactly the
head run that takeWhile captures. -/
theorem takeWhile_eq_filter_of_ordered (now : Int) (l : List rd_kafka_msg_t)
    (hs : l.Pairwise (fun a b => a.rkm_ts_timeout ≤ b.rkm_ts_timeout)) :
    l.takeWhile (fun m => decide (m.rkm_ts_timeout ≤ now)) =
      l.filter (fun m => decide (m.rkm_ts_timeout ≤ now)) := by
  induction l with
  | nil => rfl
  | cons a l ih =>
      rcases List.pairwise_cons.mp hs with ⟨ha, hl⟩
      by_cases h : a.rkm_ts_timeout ≤ now
      · simp [List.takeWhile_cons, List.filter_cons, h, ih hl]
      · have hrest : ∀ x ∈ l, ¬ decide (x.rkm_ts_timeout ≤ now) = true := by
          intro x hx hdec
          exact h (le_trans (ha x hx) (of_decide_eq_true hdec))
        simp only [List.takeWhile_cons, List.filter_cons]
        rw [if_neg (by simp [h]), if_neg (by simp [h])]
        rw [List.filter_eq_nil_iff.mpr (by intro x hx; simpa using hrest x hx)]

/-- Under non-decreasing deadlines the surviving messages are exactly the
ones whose deadline is still in the future. -/
theorem dropWhile_eq_filter_of_ordered (now : Int) (l : List rd_kafka_msg_t)
    (hs : l.Pairwise (fun a b => a.rkm_ts_timeout ≤ b.rkm_ts_timeout)) :
    l.dropWhile (fun m => decide (m.rkm_ts_timeout ≤ now)) =
      l.filter (fun m => decide (now < m.rkm_ts_timeout)) := by
  induction l with
  | nil => rfl
  | cons a l ih =>
      rcases List.pairwise_cons.mp hs with ⟨ha, hl⟩
      by_cases h : a.rkm_ts_timeout ≤ now
      · simp [List.dropWhile_cons, List.filter_cons, h, not_lt.mpr h, ih hl]
      · have hlt : now < a.rkm_ts_timeout := not_le.mp h
        have hrest : ∀ x ∈ l, decide (now < x.rkm_ts_timeout) = true := by
          intro x hx
          exact decide_eq_true (lt_of_lt_of_le hlt (ha x hx))
        simp only [List.dropWhile_cons, List.filter_cons]
        rw [if_neg (by simp [h]), if_pos (by simp [hlt])]
        rw [List.filter_eq_self.mpr hrest]

/-- The first survivor of a dropWhile run fails the predicate. -/
theorem dropWhile_head_false (p : rd_kafka_msg_t → Bool) (l : List rd_kafka_msg_t) :
    ∀ a rest, l.dropWhile p = a :: rest → p a = false := by
  induction l with
  | nil => intro a rest h; simp [List.dropWhile] at h
  | cons b l ih =>
      intro a rest h
      rw [List.dropWhile_cons] at h
      by_cases hb : p b = true
      · rw [if_pos hb] at h
        exact ih a rest h
      · rw [if_neg hb] at h
        cases h
        simpa using hb

/-- Concrete message with deadline `ts` used by witnesses: borrowed
payload, empty key, partition 0. -/
def sampleMsg (ts : Int) : rd_kafka_msg_t :=
  { rkm_len := 0, rkm_flags := { f_free := false, f_copy := false }, rkm_opq := 0,
    rkm_key := some { data := [], len := 0 }, rkm_partition := 0,
    rkm_ts_timeout := ts, rkm_payload := PayloadLoc.extPtr 0 }

/-- C6: over a queue whose deadlines are non-decreasing,
`rd_kafka_msgq_age_scan` moves exactly the messages with deadline at most
`now` — the head run at which the walk stops on the first unexpired
message — into the timed-out queue, appending them in order after its
existing contents, leaves the remaining messages untouched in order, and
returns the number of messages moved. -/
theorem c6_age_scan_moves_expired_head_run (rkmq timedout : rd_kafka_msgq_t) (now : Int)
    (hs : rkmq.rkmq_msgs.Pairwise (fun a b => a.rkm_ts_timeout ≤ b.rkm_ts_timeout)) :
    (rd_kafka_msgq_age_scan rkmq timedout now).2.2.rkmq_msgs =
      timedout.rkmq_msgs ++
        rkmq.rkmq_msgs.filter (fun m => decide (m.rkm_ts_timeout ≤ now)) ∧
    (rd_kafka_msgq_age_scan rkmq timedout now).2.2.rkmq_msgs =
      timedout.rkmq_msgs ++
        rkmq.rkmq_msgs.takeWhile (fun m => decide (m.rkm_ts_timeout ≤ now)) ∧
    (rd_kafka_msgq_age_scan rkmq timedout now).2.1.rkmq_msgs =
      rkmq.rkmq_msgs.filter (fun m => decide (now < m.rkm_ts_timeout)) ∧
    (rd_kafka_msgq_age_scan rkmq timedout now).2.1.rkmq_msgs =
      rkmq.rkmq_msgs.dropWhile (fun m => decide (m.rkm_ts_timeout ≤ now)) ∧
    (rd_kafka_msgq_age_scan rkmq timedout now).1 =
      ((rkmq.rkmq_msgs.filter (fun m => decide (m.rkm_ts_timeout ≤ now))).length : Int) := by
  rw [rd_kafka_msgq_age_scan_eq]
  refine ⟨?_, rfl, ?_, rfl, ?_⟩
  · rw [← takeWhile_eq_filter_of_ordered now rkmq.rkmq_msgs hs]
  · exact dropWhile_eq_filter_of_ordered now rkmq.rkmq_msgs hs
  · rw [← takeWhile_eq_filter_of_ordered now rkmq.rkmq_msgs hs]

/-- C6 witness: the theorem instantiated on the queue with deadlines
1, 2, 5 swept at time 3 against an empty timed-out queue. -/
theorem c6_age_scan_moves_expired_head_run_witness :
    (rd_kafka_msgq_age_scan ⟨[sampleMsg 1, sampleMsg 2, sampleMsg 5], 3⟩ ⟨[], 0⟩ 3).2.2.rkmq_msgs =
      [] ++ [sampleMsg 1, sampleMsg 2, sampleMsg 5].filter
        (fun m => decide (m.rkm_ts_timeout ≤ 3)) ∧
    (rd_kafka_msgq_age_scan ⟨[sampleMsg 1, sampleMsg 2, sampleMsg 5], 3⟩ ⟨[], 0⟩ 3).2.2.rkmq_msgs =
      [] ++ [sampleMsg 1, sampleMsg 2, sampleMsg 5].takeWhile
        (fun m => decide (m.rkm_ts_timeout ≤ 3)) ∧
    (rd_kafka_msgq_age_scan ⟨[sampleMsg 1, sampleMsg 2, sampleMsg 5], 3⟩ ⟨[], 0⟩ 3).2.1.rkmq_msgs =
      [sampleMsg 1, sampleMsg 2, sampleMsg 5].filter
        (fun m => decide (3 < m.rkm_ts_timeout)) ∧
    (rd_kafka_msgq_age_scan ⟨[sampleMsg 1, sampleMsg 2, sampleMsg 5], 3⟩ ⟨[], 0⟩ 3).2.1.rkmq_msgs =
      [sampleMsg 1, sampleMsg 2, sampleMsg 5].dropWhile
        (fun m => decide (m.rkm_ts_timeout ≤ 3)) ∧
    (rd_kafka_msgq_age_scan ⟨[sampleMsg 1, sampleMsg 2, sampleMsg 5], 3⟩ ⟨[], 0⟩ 3).1 =
      (([sampleMsg 1, sampleMsg 2, sampleMsg 5].filter
        (fun m => decide (m.rkm_ts_timeout ≤ 3))).length : Int) :=
  c6_age_scan_moves_expired_head_run ⟨[sampleMsg 1, sampleMsg 2, sampleMsg 5], 3⟩ ⟨[], 0⟩ 3
    (by decide)

/-- C7: on a deadline-sorted queue, running the age scan a second time
with the same `now` on the queues the first run produced moves zero
messages and returns 0. -/
theorem c7_age_scan_idempotent (rkmq timedout : rd_kafka_msgq_t) (now : Int)
    (hs : rkmq.rkmq_msgs.Pairwise (fun a b => a.rkm_ts_timeout ≤ b.rkm_ts_timeout)) :
    rd_kafka_msgq_age_scan (rd_kafka_msgq_age_scan rkmq timedout now).2.1
        (rd_kafka_msgq_age_scan rkmq timedout now).2.2 now =
      (0, (rd_kafka_msgq_age_scan rkmq timedout now).2.1,
          (rd_kafka_msgq_age_scan rkmq timedout now).2.2) := by
  set q1 := (rd_kafka_msgq_age_scan rkmq timedout now).2.1 with hq1
  set t1 := (rd_kafka_msgq_age_scan rkmq timedout now).2.2 with ht1
  have hdrop : q1.rkmq_msgs =
      rkmq.rkmq_msgs.dropWhile (fun m => decide (m.rkm_ts_timeout ≤ now)) := by
    rw [hq1, rd_kafka_msgq_age_scan_eq]
  have hloop : ageScanLoop now q1 t1 q1.rkmq_msgs = (q1, t1) := by
    cases hq : q1.rkmq_msgs with
    | nil => simp [ageScanLoop]
    | cons a rest =>
        have hpa : decide (a.rkm_ts_timeout ≤ now) = false :=
          dropWhile_head_false _ rkmq.rkmq_msgs a rest (by rw [← hdrop, hq])
        have hlt : now < a.rkm_ts_timeout := not_le.mp (by simpa using hpa)
        simp [ageScanLoop, hlt]
  show rd_kafka_msgq_age_scan q1 t1 now = (0, q1, t1)
  unfold rd_kafka_msgq_age_scan
  rw [hloop]
  simp

/-- C7 witness: the theorem instantiated on the queue with deadlines
1, 2, 5 swept twice at time 3. -/
theorem c7_age_scan_idempotent_witness :
    rd_kafka_msgq_age_scan
        (rd_kafka_msgq_age_scan ⟨[sampleMsg 1, sampleMsg 2, sampleMsg 5], 3⟩ ⟨[], 0⟩ 3).2.1
        (rd_kafka_msgq_age_scan ⟨[sampleMsg 1, sampleMsg 2, sampleMsg 5], 3⟩ ⟨[], 0⟩ 3).2.2 3 =
      (0, (rd_kafka_msgq_age_scan ⟨[sampleMsg 1, sampleMsg 2, sampleMsg 5], 3⟩ ⟨[], 0⟩ 3).2.1,
          (rd_kafka_msgq_age_scan ⟨[sampleMsg 1, sampleMsg 2, sampleMsg 5], 3⟩ ⟨[], 0⟩ 3).2.2) :=
  c7_age_scan_idempotent ⟨[sampleMsg 1, sampleMsg 2, sampleMsg 5], 3⟩ ⟨[], 0⟩ 3 (by decide)

/-- The router never changes the admission counter; only queues move. -/
theorem partitioner_preserves_msg_cnt (rkt : rd_kafka_topic_t) (rkm : rd_kafka_msg_t)
    (now : Int) (st : KState) :
    (rd_kafka_msg_partitioner rkt rkm now st).2.msg_cnt = st.msg_cnt := by
  unfold rd_kafka_msg_partitioner resolveAndEnqueue
  split
  · rfl
  · split
    · rfl
    · rfl

/-- On a routing error the router returns the state untouched: both the
fast-fail branch and the failed lookup hand back the incoming state. -/
theorem partitioner_err_state (rkt : rd_kafka_topic_t) (rkm : rd_kafka_msg_t)
    (now : Int) (st : KState) (e : RespErr)
    (h : (rd_kafka_msg_partitioner rkt rkm now st).1 = some e) :
    (rd_kafka_msg_partitioner rkt rkm now st).2 = st := by
  revert h
  unfold rd_kafka_msg_partitioner resolveAndEnqueue
  split
  · intro _; rfl
  · split
    · intro h; simp at h
    · intro _; rfl

/-- When the stale-metadata guard condition holds and the metadata is
fresh, the router fails fast with the topic/partition error, touching
nothing. -/
theorem partitioner_fast_fail (rkt : rd_kafka_topic_t) (rkm : rd_kafka_msg_t)
    (now : Int) (st : KState)
    (hg : rkt.rkt_state = TopicState.UNKNOWN ∨
          (rkm.rkm_partition ≠ RD_KAFKA_PARTITION_UA ∧
           rkm.rkm_partition ≥ rkt.rkt_partition_cnt))
    (hf : now < rkt.rkt_ts_metadata + rkt.metadata_refresh_interval_ms * 3 * 1000) :
    rd_kafka_msg_partitioner rkt rkm now st =
      (some (if rkt.rkt_partition_cnt = 0 then RespErr.UNKNOWN_TOPIC
             else RespErr.UNKNOWN_PARTITION), st) := by
  unfold rd_kafka_msg_partitioner
  rw [if_pos ⟨hg, hf⟩]

/-- Empty producer state used by witnesses. -/
def emptyState : KState := { msg_cnt := 0, queues := fun _ => [] }

/-- Topic with stale metadata used by witnesses: two partitions, last
refresh at 0, so the guard's trust window has expired long before the
sweep times used; only the unassigned pseudo-partition resolves. -/
def staleTopic : rd_kafka_topic_t :=
  { rkt_state := TopicState.EXISTS, rkt_partition_cnt := 2, rkt_ts_metadata := 0,
    max_msg_size := 1000000, queue_buffering_max_msgs := 100,
    message_timeout_ms := 300000, metadata_refresh_interval_ms := 10000,
    partitioner := fun _ _ _ => 0, partition_available := fun _ => true,
    toppar_exists := fun i => i == RD_KAFKA_PARTITION_UA }

/-- C5: a message whose chosen or forced partition index is still at or
above the partition count at the bounds re-check stage (the fast-fail
guard having not fired) is demoted to the unassigned sentinel and routing
continues to the lookup stage with that sentinel instead of returning an
error at the re-check; when the unassigned pseudo-partition resolves, the
message is enqueued on its queue. -/
theorem c5_bounds_recheck_demotes_to_ua (rkt : rd_kafka_topic_t)
    (rkm : rd_kafka_msg_t) (now : Int) (st : KState)
    (hng : ¬ ((rkt.rkt_state = TopicState.UNKNOWN ∨
               (rkm.rkm_partition ≠ RD_KAFKA_PARTITION_UA ∧
                rkm.rkm_partition ≥ rkt.rkt_partition_cnt)) ∧
              now < rkt.rkt_ts_metadata + rkt.metadata_refresh_interval_ms * 3 * 1000))
    (hoob : chooseInitialPartition rkt rkm ≥ rkt.rkt_partition_cnt) :
    boundsRecheck rkt (chooseInitialPartition rkt rkm) = RD_KAFKA_PARTITION_UA ∧
    rd_kafka_msg_partitioner rkt rkm now st =
      resolveAndEnqueue rkt rkm RD_KAFKA_PARTITION_UA st ∧
    (rkt.toppar_exists RD_KAFKA_PARTITION_UA = true →
      (rd_kafka_msg_partitioner rkt rkm now st).1 = none ∧
      (rd_kafka_msg_partitioner rkt rkm now st).2.queues RD_KAFKA_PARTITION_UA =
        st.queues RD_KAFKA_PARTITION_UA ++ [rkm]) := by
  have hbr : boundsRecheck rkt (chooseInitialPartition rkt rkm) = RD_KAFKA_PARTITION_UA := by
    unfold boundsRecheck
    rw [if_pos hoob]
  have hpart : rd_kafka_msg_partitioner rkt rkm now st =
      resolveAndEnqueue rkt rkm RD_KAFKA_PARTITION_UA st := by
    unfold rd_kafka_msg_partitioner
    rw [if_neg hng, hbr]
  refine ⟨hbr, hpart, ?_⟩
  intro hex
  rw [hpart]
  unfold resolveAndEnqueue
  rw [if_pos hex]
  exact ⟨rfl, by simp⟩

/-- C5 witness: the theorem instantiated on the stale topic with a forced
partition 5 out of a partition count of 2, at a sweep time far past the
trust window. -/
theorem c5_bounds_recheck_demotes_to_ua_witness :
    boundsRecheck staleTopic
        (chooseInitialPartition staleTopic { sampleMsg 0 with rkm_partition := 5 }) =
      RD_KAFKA_PARTITION_UA ∧
    rd_kafka_msg_partitioner staleTopic { sampleMsg 0 with rkm_partition := 5 }
        100000000 emptyState =
      resolveAndEnqueue staleTopic { sampleMsg 0 with rkm_partition := 5 }
        RD_KAFKA_PARTITION_UA emptyState ∧
    (staleTopic.toppar_exists RD_KAFKA_PARTITION_UA = true →
      (rd_kafka_msg_partitioner staleTopic { sampleMsg 0 with rkm_partition := 5 }
          100000000 emptyState).1 = none ∧
      (rd_kafka_msg_partitioner staleTopic { sampleMsg 0 with rkm_partition := 5 }
          100000000 emptyState).2.queues RD_KAFKA_PARTITION_UA =
        emptyState.queues RD_KAFKA_PARTITION_UA ++ [{ sampleMsg 0 with rkm_partition := 5 }]) :=
  c5_bounds_recheck_demotes_to_ua staleTopic { sampleMsg 0 with rkm_partition := 5 }
    100000000 emptyState (by decide) (by decide)

/-- A jitter draw over `[0, partition_cnt - 1]` lands in
`[0, partition_cnt)` whenever at least one partition exists. -/
theorem rd_jitter_mem (partition_cnt : Int) (r : Nat) (h : 1 ≤ partition_cnt) :
    0 ≤ rd_jitter 0 (partition_cnt - 1) r ∧
      rd_jitter 0 (partition_cnt - 1) r < partition_cnt := by
  unfold rd_jitter
  have hmod : partition_cnt - 1 - 0 + 1 = partition_cnt := by ring
  rw [hmod]
  have h1 := Int.emod_nonneg (r : Int) (show partition_cnt ≠ 0 by omega)
  have h2 := Int.emod_lt_of_pos (r : Int) (show (0 : Int) < partition_cnt by omega)
  omega

/-- Every index of `[0, partition_cnt)` is reached by some draw, the
shallow rendering of the uniform choice. -/
theorem rd_jitter_surj (partition_cnt : Int) (h : 1 ≤ partition_cnt) (q : Int)
    (h0 : 0 ≤ q) (h1 : q < partition_cnt) :
    rd_jitter 0 (partition_cnt - 1) q.toNat = q := by
  unfold rd_jitter
  have hmod : partition_cnt - 1 - 0 + 1 = partition_cnt := by ring
  rw [hmod, Int.toNat_of_nonneg h0, Int.emod_eq_of_lt h0 h1]
  ring

/-- C9: with at least one partition, the default partitioner draws a
random index in `[0, partition_count)` (every index reachable); if that
partition is available it is returned as-is, and if it is not, the
partitioner draws exactly once more and returns the second draw without
checking its availability; the result always lies in
`[0, partition_count)`. -/
theorem c9_random_partitioner_single_retry (rkt : rd_kafka_topic_t)
    (key : List Nat) (keylen : Nat) (partition_cnt : Int) (r1 r2 : Nat)
    (hpc : 1 ≤ partition_cnt) :
    (0 ≤ rd_jitter 0 (partition_cnt - 1) r1 ∧
      rd_jitter 0 (partition_cnt - 1) r1 < partition_cnt) ∧
    (∀ q : Int, 0 ≤ q → q < partition_cnt →
      ∃ r : Nat, rd_jitter 0 (partition_cnt - 1) r = q) ∧
    (rkt.partition_available (rd_jitter 0 (partition_cnt - 1) r1) = true →
      rd_kafka_msg_partitioner_random rkt key keylen partition_cnt r1 r2 =
        rd_jitter 0 (partition_cnt - 1) r1) ∧
    (rkt.partition_available (rd_jitter 0 (partition_cnt - 1) r1) = false →
      rd_kafka_msg_partitioner_random rkt key keylen partition_cnt r1 r2 =
        rd_jitter 0 (partition_cnt - 1) r2) ∧
    (0 ≤ rd_kafka_msg_partitioner_random rkt key keylen partition_cnt r1 r2 ∧
      rd_kafka_msg_partitioner_random rkt key keylen partition_cnt r1 r2 <
        partition_cnt) := by
  refine ⟨rd_jitter_mem partition_cnt r1 hpc, ?_, ?_, ?_, ?_⟩
  · intro q h0 h1
    exact ⟨q.toNat, rd_jitter_surj partition_cnt hpc q h0 h1⟩
  · intro h
    simp [rd_kafka_msg_partitioner_random, h]
  · intro h
    simp [rd_kafka_msg_partitioner_random, h]
  · by_cases h : rkt.partition_available (rd_jitter 0 (partition_cnt - 1) r1) = true
    · simp only [rd_kafka_msg_partitioner_random, h]
      simpa using rd_jitter_mem partition_cnt r1 hpc
    · simp only [rd_kafka_msg_partitioner_random, eq_false_of_ne_true h]
      simpa using rd_jitter_mem partition_cnt r2 hpc

/-- C9 witness: the theorem instantiated at the two-partition stale
topic with draws 0 and 1. -/
theorem c9_random_partitioner_single_retry_witness :
    (0 ≤ rd_jitter 0 (2 - 1) 0 ∧ rd_jitter 0 (2 - 1) 0 < 2) ∧
    (∀ q : Int, 0 ≤ q → q < 2 → ∃ r : Nat, rd_jitter 0 (2 - 1) r = q) ∧
    (staleTopic.partition_available (rd_jitter 0 (2 - 1) 0) = true →
      rd_kafka_msg_partitioner_random staleTopic [] 0 2 0 1 = rd_jitter 0 (2 - 1) 0) ∧
    (staleTopic.partition_available (rd_jitter 0 (2 - 1) 0) = false →
      rd_kafka_msg_partitioner_random staleTopic [] 0 2 0 1 = rd_jitter 0 (2 - 1) 1) ∧
    (0 ≤ rd_kafka_msg_partitioner_random staleTopic [] 0 2 0 1 ∧
      rd_kafka_msg_partitioner_random staleTopic [] 0 2 0 1 < 2) :=
  c9_random_partitioner_single_retry staleTopic [] 0 2 0 1 (by decide)

/-- Topic with confirmed metadata showing zero partitions, freshly
refreshed; the unassigned pseudo-partition resolves, as it does for every
known topic. -/
def zeroPartKnownTopic : rd_kafka_topic_t :=
  { rkt_state := TopicState.EXISTS, rkt_partition_cnt := 0, rkt_ts_metadata := 0,
    max_msg_size := 1000000, queue_buffering_max_msgs := 100,
    message_timeout_ms := 300000, metadata_refresh_interval_ms := 10000,
    partitioner := fun _ _ _ => 0, partition_available := fun _ => true,
    toppar_exists := fun _ => true }

/-- Topic whose metadata was never confirmed (state UNKNOWN, partition
count 0), freshly created, no partition reference resolvable. -/
def freshUnknownTopic : rd_kafka_topic_t :=
  { rkt_state := TopicState.UNKNOWN, rkt_partition_cnt := 0, rkt_ts_metadata := 0,
    max_msg_size := 1000000, queue_buffering_max_msgs := 100,
    message_timeout_ms := 300000, metadata_refresh_interval_ms := 10000,
    partitioner := fun _ _ _ => 0, partition_available := fun _ => true,
    toppar_exists := fun _ => false }

/-- C1 counterexample: the forced partition -2 is specific (not the
unassigned sentinel) and not within `[0, partition_count)`, the topic's
metadata is fresh (time 0, trust window 30000000 microseconds) and its
partition count is 0, so the claim demands a fast UnknownTopic failure
with no message enqueued; the guard of lines 188-193 however only
compares the forced index against the partition count with `>=`, a
negative index slips past it, and this produce call succeeds, setting no
errno and enqueuing the message on the unassigned partition's queue. -/
theorem c1_counterexample_negative_forced_partition :
    ((-2 : Int) ≠ RD_KAFKA_PARTITION_UA ∧
     ¬ (0 ≤ (-2 : Int) ∧ (-2 : Int) < zeroPartKnownTopic.rkt_partition_cnt) ∧
     (0 : Int) < zeroPartKnownTopic.rkt_ts_metadata +
       zeroPartKnownTopic.metadata_refresh_interval_ms * 3 * 1000 ∧
     zeroPartKnownTopic.rkt_partition_cnt = 0) ∧
    (rd_kafka_msg_new zeroPartKnownTopic 0 (-2) { f_free := false, f_copy := false }
        0 10 none 0 0 emptyState).retval = 0 ∧
    (rd_kafka_msg_new zeroPartKnownTopic 0 (-2) { f_free := false, f_copy := false }
        0 10 none 0 0 emptyState).errno = none ∧
    ((rd_kafka_msg_new zeroPartKnownTopic 0 (-2) { f_free := false, f_copy := false }
        0 10 none 0 0 emptyState).st.queues RD_KAFKA_PARTITION_UA).length = 1 := by
  refine ⟨by decide, ?_, ?_, ?_⟩ <;> rfl

/-- C1 amended: for every produce call where the topic's state is
UNKNOWN, or a specific (non-unassigned) partition index at or above
`partition_count` is forced (a negative non-sentinel index does not
trigger the guard), and the current time is within
`3 × metadata_refresh_interval` of the last metadata refresh, produce
fails fast — `UnknownTopic` (errno ENOENT) when `partition_count == 0`
and `UnknownPartition` (errno ESRCH) otherwise — the message is not
enqueued and the admission counter is restored. -/
theorem c1_fast_fail_fresh_metadata (rkt : rd_kafka_topic_t)
    (now force_partition : Int) (msgflags : MsgFlags) (payload len : Nat)
    (key : Option (List Nat)) (keylen : Nat) (msg_opq : Nat) (st : KState)
    (hsize : len + keylen ≤ rkt.max_msg_size)
    (hadm : st.msg_cnt + 1 ≤ rkt.queue_buffering_max_msgs)
    (hg : rkt.rkt_state = TopicState.UNKNOWN ∨
          (force_partition ≠ RD_KAFKA_PARTITION_UA ∧
           force_partition ≥ rkt.rkt_partition_cnt))
    (hf : now < rkt.rkt_ts_metadata + rkt.metadata_refresh_interval_ms * 3 * 1000) :
    (rd_kafka_msg_new rkt now force_partition msgflags payload len key keylen
        msg_opq st).retval = -1 ∧
    (rd_kafka_msg_new rkt now force_partition msgflags payload len key keylen
        msg_opq st).errno =
      some (if rkt.rkt_partition_cnt = 0 then Errno.ENOENT else Errno.ESRCH) ∧
    (rd_kafka_msg_new rkt now force_partition msgflags payload len key keylen
        msg_opq st).st.msg_cnt = st.msg_cnt ∧
    (rd_kafka_msg_new rkt now force_partition msgflags payload len key keylen
        msg_opq st).st.queues = st.queues ∧
    (rd_kafka_msg_partitioner rkt
        (producedMsg rkt now force_partition msgflags payload len key keylen msg_opq)
        now { st with msg_cnt := st.msg_cnt + 1 }).1 =
      some (if rkt.rkt_partition_cnt = 0 then RespErr.UNKNOWN_TOPIC
            else RespErr.UNKNOWN_PARTITION) := by
  have hp := partitioner_fast_fail rkt
    (producedMsg rkt now force_partition msgflags payload len key keylen msg_opq)
    now { st with msg_cnt := st.msg_cnt + 1 }
    (by
      show rkt.rkt_state = TopicState.UNKNOWN ∨
        (force_partition ≠ RD_KAFKA_PARTITION_UA ∧
         force_partition ≥ rkt.rkt_partition_cnt)
      exact hg) hf
  unfold rd_kafka_msg_new
  rw [if_neg (size_check_passes len keylen rkt.max_msg_size hsize), if_neg (by omega)]
  unfold routeOutcome
  rw [hp]
  refine ⟨rfl, ?_, ?_, rfl, rfl⟩
  · by_cases hpc : rkt.rkt_partition_cnt = 0 <;> simp [hpc, msg_new_errno_of]
  · simp [rd_kafka_msg_destroy]

/-- C1 witness: the amended theorem instantiated on the never-confirmed
topic (state UNKNOWN, zero partitions) with fresh metadata. -/
theorem c1_fast_fail_fresh_metadata_witness :
    (rd_kafka_msg_new freshUnknownTopic 0 0 { f_free := false, f_copy := false }
        0 10 none 0 0 emptyState).retval = -1 ∧
    (rd_kafka_msg_new freshUnknownTopic 0 0 { f_free := false, f_copy := false }
        0 10 none 0 0 emptyState).errno =
      some (if freshUnknownTopic.rkt_partition_cnt = 0 then Errno.ENOENT
            else Errno.ESRCH) ∧
    (rd_kafka_msg_new freshUnknownTopic 0 0 { f_free := false, f_copy := false }
        0 10 none 0 0 emptyState).st.msg_cnt = emptyState.msg_cnt ∧
    (rd_kafka_msg_new freshUnknownTopic 0 0 { f_free := false, f_copy := false }
        0 10 none 0 0 emptyState).st.queues = emptyState.queues ∧
    (rd_kafka_msg_partitioner freshUnknownTopic
        (producedMsg freshUnknownTopic 0 0 { f_free := false, f_copy := false }
          0 10 none 0 0)
        0 { emptyState with msg_cnt := emptyState.msg_cnt + 1 }).1 =
      some (if freshUnknownTopic.rkt_partition_cnt = 0 then RespErr.UNKNOWN_TOPIC
            else RespErr.UNKNOWN_PARTITION) :=
  c1_fast_fail_fresh_metadata freshUnknownTopic 0 0 { f_free := false, f_copy := false }
    0 10 none 0 0 emptyState (by decide) (by decide) (Or.inl rfl) (by decide)

/-- C2 counterexample: with `len = 2^64 - 1` and `keylen = 2` (both
valid `size_t` values) the mathematical sum exceeds every configured
maximum, so the claim demands a MessageTooLarge failure with no
allocation and an unchanged admission counter; the `size_t` sum of
line 67 however wraps to 1, the check passes, and this produce call
succeeds: no errno, a record allocated, the admission counter raised
to 1. -/
theorem c2_counterexample_size_t_wrap :
    2 ^ 64 - 1 + 2 > zeroPartKnownTopic.max_msg_size ∧
    (2 ^ 64 - 1 + 2) % SIZE_T_MOD = 1 ∧
    (rd_kafka_msg_new zeroPartKnownTopic 0 RD_KAFKA_PARTITION_UA
        { f_free := false, f_copy := false } 0 (2 ^ 64 - 1) (some [1, 2]) 2 0
        emptyState).retval = 0 ∧
    (rd_kafka_msg_new zeroPartKnownTopic 0 RD_KAFKA_PARTITION_UA
        { f_free := false, f_copy := false } 0 (2 ^ 64 - 1) (some [1, 2]) 2 0
        emptyState).errno = none ∧
    (rd_kafka_msg_new zeroPartKnownTopic 0 RD_KAFKA_PARTITION_UA
        { f_free := false, f_copy := false } 0 (2 ^ 64 - 1) (some [1, 2]) 2 0
        emptyState).st.msg_cnt = 1 ∧
    (rd_kafka_msg_new zeroPartKnownTopic 0 RD_KAFKA_PARTITION_UA
        { f_free := false, f_copy := false } 0 (2 ^ 64 - 1) (some [1, 2]) 2 0
        emptyState).allocated ≠ none := by
  refine ⟨by decide, by decide, ?_, ?_, ?_, by decide⟩ <;> rfl

/-- C2 amended: a produce call whose `size_t` sum of payload and key
lengths — `(len + keylen) mod 2^64` — exceeds the configured maximum
message size fails with MessageTooLarge (errno EMSGSIZE), allocates
nothing, and leaves the state — admission counter and every queue —
exactly as it was.  (A mathematically oversized pair whose machine sum
wraps below the limit passes the line-67 check and is admitted.) -/
theorem c2_too_large_no_side_effects (rkt : rd_kafka_topic_t)
    (now force_partition : Int) (msgflags : MsgFlags) (payload len : Nat)
    (key : Option (List Nat)) (keylen : Nat) (msg_opq : Nat) (st : KState)
    (h : (len + keylen) % SIZE_T_MOD > rkt.max_msg_size) :
    (rd_kafka_msg_new rkt now force_partition msgflags payload len key keylen
        msg_opq st).retval = -1 ∧
    (rd_kafka_msg_new rkt now force_partition msgflags payload len key keylen
        msg_opq st).errno = some Errno.EMSGSIZE ∧
    (rd_kafka_msg_new rkt now force_partition msgflags payload len key keylen
        msg_opq st).st = st ∧
    (rd_kafka_msg_new rkt now force_partition msgflags payload len key keylen
        msg_opq st).allocated = none := by
  unfold rd_kafka_msg_new
  rw [if_pos h]
  exact ⟨rfl, rfl, rfl, rfl⟩

/-- C2 witness: a 2000000-byte payload against the 1000000-byte limit. -/
theorem c2_too_large_no_side_effects_witness :
    (rd_kafka_msg_new freshUnknownTopic 0 0 { f_free := false, f_copy := false }
        0 2000000 none 0 0 emptyState).retval = -1 ∧
    (rd_kafka_msg_new freshUnknownTopic 0 0 { f_free := false, f_copy := false }
        0 2000000 none 0 0 emptyState).errno = some Errno.EMSGSIZE ∧
    (rd_kafka_msg_new freshUnknownTopic 0 0 { f_free := false, f_copy := false }
        0 2000000 none 0 0 emptyState).st = emptyState ∧
    (rd_kafka_msg_new freshUnknownTopic 0 0 { f_free := false, f_copy := false }
        0 2000000 none 0 0 emptyState).allocated = none :=
  c2_too_large_no_side_effects freshUnknownTopic 0 0 { f_free := false, f_copy := false }
    0 2000000 none 0 0 emptyState (by decide)

/-- Whatever the routing outcome, `rd_kafka_msg_new` never ends with an
admission count above the one it reserved. -/
theorem routeOutcome_msg_cnt_le (rkt : rd_kafka_topic_t) (rkm : rd_kafka_msg_t)
    (now : Int) (st1 : KState) :
    (routeOutcome rkt rkm now st1).st.msg_cnt ≤ st1.msg_cnt := by
  unfold routeOutcome
  rcases hres : rd_kafka_msg_partitioner rkt rkm now st1 with ⟨oe, st2⟩
  have hpres := partitioner_preserves_msg_cnt rkt rkm now st1
  rw [hres] at hpres
  simp only at hpres
  cases oe with
  | none => simpa using Nat.le_of_eq hpres
  | some e =>
      simp only [rd_kafka_msg_destroy]
      omega

/-- C3: with the admission counter at the configured ceiling, the next
otherwise-valid produce fails with QueueFull (errno ENOBUFS), retains no
slot and changes nothing; moreover, every produce call and every destroy
call preserves the invariant that the counter never exceeds the
ceiling at operation boundaries. -/
theorem c3_admission_ceiling (rkt : rd_kafka_topic_t)
    (now force_partition : Int) (msgflags : MsgFlags) (payload len : Nat)
    (key : Option (List Nat)) (keylen : Nat) (msg_opq : Nat) (st : KState)
    (hceil : st.msg_cnt = rkt.queue_buffering_max_msgs)
    (hsize : len + keylen ≤ rkt.max_msg_size) :
    (rd_kafka_msg_new rkt now force_partition msgflags payload len key keylen
        msg_opq st).retval = -1 ∧
    (rd_kafka_msg_new rkt now force_partition msgflags payload len key keylen
        msg_opq st).errno = some Errno.ENOBUFS ∧
    (rd_kafka_msg_new rkt now force_partition msgflags payload len key keylen
        msg_opq st).st = st ∧
    (rd_kafka_msg_new rkt now force_partition msgflags payload len key keylen
        msg_opq st).allocated = none ∧
    (∀ st2 : KState, st2.msg_cnt ≤ rkt.queue_buffering_max_msgs →
      (rd_kafka_msg_new rkt now force_partition msgflags payload len key keylen
          msg_opq st2).st.msg_cnt ≤ rkt.queue_buffering_max_msgs) ∧
    (∀ (st3 : KState) (rkm : rd_kafka_msg_t),
      st3.msg_cnt ≤ rkt.queue_buffering_max_msgs →
      (rd_kafka_msg_destroy st3 rkm).1.msg_cnt ≤ rkt.queue_buffering_max_msgs) := by
  refine ⟨?_, ?_, ?_, ?_, ?_, ?_⟩
  · unfold rd_kafka_msg_new
    rw [if_neg (size_check_passes len keylen rkt.max_msg_size hsize), if_pos (by omega)]
  · unfold rd_kafka_msg_new
    rw [if_neg (size_check_passes len keylen rkt.max_msg_size hsize), if_pos (by omega)]
  · unfold rd_kafka_msg_new
    rw [if_neg (size_check_passes len keylen rkt.max_msg_size hsize), if_pos (by omega)]
  · unfold rd_kafka_msg_new
    rw [if_neg (size_check_passes len keylen rkt.max_msg_size hsize), if_pos (by omega)]
  · intro st2 h2
    unfold rd_kafka_msg_new
    by_cases hs1 : (len + keylen) % SIZE_T_MOD > rkt.max_msg_size
    · rw [if_pos hs1]
      exact h2
    · rw [if_neg hs1]
      by_cases hs2 : st2.msg_cnt + 1 > rkt.queue_buffering_max_msgs
      · rw [if_pos hs2]
        exact h2
      · rw [if_neg hs2]
        have hle := routeOutcome_msg_cnt_le rkt
          (producedMsg rkt now force_partition msgflags payload len key keylen msg_opq)
          now { st2 with msg_cnt := st2.msg_cnt + 1 }
        simp only at hle
        omega
  · intro st3 rkm h3
    simp only [rd_kafka_msg_destroy]
    omega

/-- Producer state sitting exactly at the ceiling of the witness topics. -/
def fullState : KState := { msg_cnt := 100, queues := fun _ => [] }

/-- C3 witness: the theorem instantiated at the ceiling of 100. -/
theorem c3_admission_ceiling_witness :
    (rd_kafka_msg_new freshUnknownTopic 0 0 { f_free := false, f_copy := false }
        0 10 none 0 0 fullState).retval = -1 ∧
    (rd_kafka_msg_new freshUnknownTopic 0 0 { f_free := false, f_copy := false }
        0 10 none 0 0 fullState).errno = some Errno.ENOBUFS ∧
    (rd_kafka_msg_new freshUnknownTopic 0 0 { f_free := false, f_copy := false }
        0 10 none 0 0 fullState).st = fullState ∧
    (rd_kafka_msg_new freshUnknownTopic 0 0 { f_free := false, f_copy := false }
        0 10 none 0 0 fullState).allocated = none ∧
    (∀ st2 : KState, st2.msg_cnt ≤ freshUnknownTopic.queue_buffering_max_msgs →
      (rd_kafka_msg_new freshUnknownTopic 0 0 { f_free := false, f_copy := false }
          0 10 none 0 0 st2).st.msg_cnt ≤ freshUnknownTopic.queue_buffering_max_msgs) ∧
    (∀ (st3 : KState) (rkm : rd_kafka_msg_t),
      st3.msg_cnt ≤ freshUnknownTopic.queue_buffering_max_msgs →
      (rd_kafka_msg_destroy st3 rkm).1.msg_cnt ≤
        freshUnknownTopic.queue_buffering_max_msgs) :=
  c3_admission_ceiling freshUnknownTopic 0 0 { f_free := false, f_copy := false }
    0 10 none 0 0 fullState (by decide) (by decide)

/-- Destroying a message built by `rd_kafka_msg_new` releases its payload
buffer exactly when its ownership mode is owned or copied: the explicit
`free` covers the owned case, the record free covers the copied case, and
a borrowed buffer is touched by neither. -/
theorem producedMsg_payload_freed_iff (rkt : rd_kafka_topic_t)
    (now force_partition : Int) (msgflags : MsgFlags) (payload len : Nat)
    (key : Option (List Nat)) (keylen : Nat) (msg_opq : Nat) (st0 : KState) :
    payloadBufferFreed
        (producedMsg rkt now force_partition msgflags payload len key keylen msg_opq)
        (rd_kafka_msg_destroy st0
          (producedMsg rkt now force_partition msgflags payload len key keylen msg_opq)).2 =
      true ↔
    ((producedMsg rkt now force_partition msgflags payload len key keylen
        msg_opq).ownership = Ownership.owned ∨
     (producedMsg rkt now force_partition msgflags payload len key keylen
        msg_opq).ownership = Ownership.copied) := by
  rcases msgflags with ⟨ff, fc⟩
  cases ff <;> cases fc <;>
    simp [producedMsg, payloadBufferFreed, rd_kafka_msg_destroy, rd_kafka_msg_t.ownership]

/-- C4: when the size and admission checks pass but routing fails with
error `e`, the message is destroyed before `rd_kafka_msg_new` returns:
the call returns -1, the admission counter is back at its pre-call value,
the queues are untouched, the destroy effect frees the key copy and the
record and frees the payload buffer exactly for owned/copied ownership
(never a borrowed payload), and `e` is mapped to errno by
`msg_new_errno_of` — UnknownPartition to ESRCH, UnknownTopic to ENOENT,
anything else to EINVAL. -/
theorem c4_routing_failure_cleanup (rkt : rd_kafka_topic_t)
    (now force_partition : Int) (msgflags : MsgFlags) (payload len : Nat)
    (key : Option (List Nat)) (keylen : Nat) (msg_opq : Nat) (st : KState)
    (e : RespErr)
    (hsize : len + keylen ≤ rkt.max_msg_size)
    (hadm : st.msg_cnt + 1 ≤ rkt.queue_buffering_max_msgs)
    (herr : (rd_kafka_msg_partitioner rkt
        (producedMsg rkt now force_partition msgflags payload len key keylen msg_opq)
        now { st with msg_cnt := st.msg_cnt + 1 }).1 = some e) :
    (rd_kafka_msg_new rkt now force_partition msgflags payload len key keylen
        msg_opq st).retval = -1 ∧
    (rd_kafka_msg_new rkt now force_partition msgflags payload len key keylen
        msg_opq st).errno = some (msg_new_errno_of e) ∧
    (rd_kafka_msg_new rkt now force_partition msgflags payload len key keylen
        msg_opq st).st.msg_cnt = st.msg_cnt ∧
    (rd_kafka_msg_new rkt now force_partition msgflags payload len key keylen
        msg_opq st).st.queues = st.queues ∧
    (rd_kafka_msg_new rkt now force_partition msgflags payload len key keylen
        msg_opq st).destroyed = true ∧
    (∃ eff : DestroyEffect,
      (rd_kafka_msg_new rkt now force_partition msgflags payload len key keylen
          msg_opq st).destroy_eff = some eff ∧
      eff.key_freed = true ∧
      eff.record_freed = true ∧
      (payloadBufferFreed
          (producedMsg rkt now force_partition msgflags payload len key keylen msg_opq)
          eff = true ↔
        ((producedMsg rkt now force_partition msgflags payload len key keylen
            msg_opq).ownership = Ownership.owned ∨
         (producedMsg rkt now force_partition msgflags payload len key keylen
            msg_opq).ownership = Ownership.copied))) := by
  have hst := partitioner_err_state rkt
    (producedMsg rkt now force_partition msgflags payload len key keylen msg_opq)
    now { st with msg_cnt := st.msg_cnt + 1 } e herr
  have hpair : rd_kafka_msg_partitioner rkt
      (producedMsg rkt now force_partition msgflags payload len key keylen msg_opq)
      now { st with msg_cnt := st.msg_cnt + 1 } =
      (some e, { st with msg_cnt := st.msg_cnt + 1 }) := by
    rw [Prod.ext_iff]
    exact ⟨herr, hst⟩
  unfold rd_kafka_msg_new
  rw [if_neg (size_check_passes len keylen rkt.max_msg_size hsize), if_neg (by omega)]
  unfold routeOutcome
  rw [hpair]
  refine ⟨rfl, rfl, by simp [rd_kafka_msg_destroy], rfl, rfl, ?_⟩
  refine ⟨_, rfl, rfl, rfl, ?_⟩
  exact producedMsg_payload_freed_iff rkt now force_partition msgflags payload len key
    keylen msg_opq { st with msg_cnt := st.msg_cnt + 1 }

/-- C4 witness: routing against the never-confirmed topic fails with
UnknownTopic; the produce call with an owned-transfer payload is cleaned
up as the theorem states. -/
theorem c4_routing_failure_cleanup_witness :
    (rd_kafka_msg_new freshUnknownTopic 0 0 { f_free := true, f_copy := false }
        7 10 none 0 0 emptyState).retval = -1 ∧
    (rd_kafka_msg_new freshUnknownTopic 0 0 { f_free := true, f_copy := false }
        7 10 none 0 0 emptyState).errno =
      some (msg_new_errno_of RespErr.UNKNOWN_TOPIC) ∧
    (rd_kafka_msg_new freshUnknownTopic 0 0 { f_free := true, f_copy := false }
        7 10 none 0 0 emptyState).st.msg_cnt = emptyState.msg_cnt ∧
    (rd_kafka_msg_new freshUnknownTopic 0 0 { f_free := true, f_copy := false }
        7 10 none 0 0 emptyState).st.queues = emptyState.queues ∧
    (rd_kafka_msg_new freshUnknownTopic 0 0 { f_free := true, f_copy := false }
        7 10 none 0 0 emptyState).destroyed = true ∧
    (∃ eff : DestroyEffect,
      (rd_kafka_msg_new freshUnknownTopic 0 0 { f_free := true, f_copy := false }
          7 10 none 0 0 emptyState).destroy_eff = some eff ∧
      eff.key_freed = true ∧
      eff.record_freed = true ∧
      (payloadBufferFreed
          (producedMsg freshUnknownTopic 0 0 { f_free := true, f_copy := false }
            7 10 none 0 0) eff = true ↔
        ((producedMsg freshUnknownTopic 0 0 { f_free := true, f_copy := false }
            7 10 none 0 0).ownership = Ownership.owned ∨
         (producedMsg freshUnknownTopic 0 0 { f_free := true, f_copy := false }
            7 10 none 0 0).ownership = Ownership.copied))) :=
  c4_routing_failure_cleanup freshUnknownTopic 0 0 { f_free := true, f_copy := false }
    7 10 none 0 0 emptyState RespErr.UNKNOWN_TOPIC (by decide) (by decide) (by decide)

/-- C8: payload ownership is a tri-state decided at creation.  A produce
in copy mode clears the caller-frees flag and places a private payload
copy inside the record; destroy frees the payload buffer exactly when the
ownership mode is owned or copied — never when borrowed — and always
destroys the private key copy and frees the message record. -/
theorem c8_ownership_tristate (rkt : rd_kafka_topic_t)
    (now force_partition : Int) (msgflags : MsgFlags) (payload len : Nat)
    (key : Option (List Nat)) (keylen : Nat) (msg_opq : Nat) (st : KState)
    (hsize : len + keylen ≤ rkt.max_msg_size)
    (hadm : st.msg_cnt + 1 ≤ rkt.queue_buffering_max_msgs) :
    (rd_kafka_msg_new rkt now force_partition msgflags payload len key keylen
        msg_opq st).allocated =
      some (producedMsg rkt now force_partition msgflags payload len key keylen msg_opq) ∧
    (msgflags.f_copy = true →
      (producedMsg rkt now force_partition msgflags payload len key keylen
          msg_opq).rkm_flags.f_free = false ∧
      (producedMsg rkt now force_partition msgflags payload len key keylen
          msg_opq).rkm_payload = PayloadLoc.inRecord ∧
      (producedMsg rkt now force_partition msgflags payload len key keylen
          msg_opq).ownership = Ownership.copied) ∧
    (payloadBufferFreed
        (producedMsg rkt now force_partition msgflags payload len key keylen msg_opq)
        (rd_kafka_msg_destroy st
          (producedMsg rkt now force_partition msgflags payload len key keylen
            msg_opq)).2 = true ↔
      ((producedMsg rkt now force_partition msgflags payload len key keylen
          msg_opq).ownership = Ownership.owned ∨
       (producedMsg rkt now force_partition msgflags payload len key keylen
          msg_opq).ownership = Ownership.copied)) ∧
    ((producedMsg rkt now force_partition msgflags payload len key keylen
        msg_opq).ownership = Ownership.borrowed →
      payloadBufferFreed
        (producedMsg rkt now force_partition msgflags payload len key keylen msg_opq)
        (rd_kafka_msg_destroy st
          (producedMsg rkt now force_partition msgflags payload len key keylen
            msg_opq)).2 = false) ∧
    (rd_kafka_msg_destroy st
        (producedMsg rkt now force_partition msgflags payload len key keylen
          msg_opq)).2.key_freed = true ∧
    (rd_kafka_msg_destroy st
        (producedMsg rkt now force_partition msgflags payload len key keylen
          msg_opq)).2.record_freed = true := by
  refine ⟨?_, ?_, ?_, ?_, rfl, rfl⟩
  · unfold rd_kafka_msg_new
    rw [if_neg (size_check_passes len keylen rkt.max_msg_size hsize), if_neg (by omega)]
    unfold routeOutcome
    rcases hres : rd_kafka_msg_partitioner rkt
      (producedMsg rkt now force_partition msgflags payload len key keylen msg_opq)
      now { st with msg_cnt := st.msg_cnt + 1 } with ⟨oe, st2⟩
    cases oe <;> rfl
  · intro hcopy
    rcases msgflags with ⟨ff, fc⟩
    simp only at hcopy
    subst hcopy
    cases ff <;>
      simp [producedMsg, rd_kafka_msg_t.ownership]
  · exact producedMsg_payload_freed_iff rkt now force_partition msgflags payload len key
      keylen msg_opq st
  · intro hb
    have hiff := producedMsg_payload_freed_iff rkt now force_partition msgflags payload
      len key keylen msg_opq st
    rw [hb] at hiff
    simpa using hiff

/-- C8 witness: a produce in copy mode with the caller-frees flag also
set, against the two-partition topic. -/
theorem c8_ownership_tristate_witness :
    (rd_kafka_msg_new staleTopic 0 0 { f_free := true, f_copy := true }
        7 10 none 0 0 emptyState).allocated =
      some (producedMsg staleTopic 0 0 { f_free := true, f_copy := true } 7 10 none 0 0) ∧
    (MsgFlags.f_copy { f_free := true, f_copy := true } = true →
      (producedMsg staleTopic 0 0 { f_free := true, f_copy := true }
          7 10 none 0 0).rkm_flags.f_free = false ∧
      (producedMsg staleTopic 0 0 { f_free := true, f_copy := true }
          7 10 none 0 0).rkm_payload = PayloadLoc.inRecord ∧
      (producedMsg staleTopic 0 0 { f_free := true, f_copy := true }
          7 10 none 0 0).ownership = Ownership.copied) ∧
    (payloadBufferFreed
        (producedMsg staleTopic 0 0 { f_free := true, f_copy := true } 7 10 none 0 0)
        (rd_kafka_msg_destroy emptyState
          (producedMsg staleTopic 0 0 { f_free := true, f_copy := true }
            7 10 none 0 0)).2 = true ↔
      ((producedMsg staleTopic 0 0 { f_free := true, f_copy := true }
          7 10 none 0 0).ownership = Ownership.owned ∨
       (producedMsg staleTopic 0 0 { f_free := true, f_copy := true }
          7 10 none 0 0).ownership = Ownership.copied)) ∧
    ((producedMsg staleTopic 0 0 { f_free := true, f_copy := true }
        7 10 none 0 0).ownership = Ownership.borrowed →
      payloadBufferFreed
        (producedMsg staleTopic 0 0 { f_free := true, f_copy := true } 7 10 none 0 0)
        (rd_kafka_msg_destroy emptyState
          (producedMsg staleTopic 0 0 { f_free := true, f_copy := true }
            7 10 none 0 0)).2 = false) ∧
    (rd_kafka_msg_destroy emptyState
        (producedMsg staleTopic 0 0 { f_free := true, f_copy := true }
          7 10 none 0 0)).2.key_freed = true ∧
    (rd_kafka_msg_destroy emptyState
        (producedMsg staleTopic 0 0 { f_free := true, f_copy := true }
          7 10 none 0 0)).2.record_freed = true :=
  c8_ownership_tristate staleTopic 0 0 { f_free := true, f_copy := true }
    7 10 none 0 0 emptyState (by decide) (by decide)

/-- C10: every message constructed by produce carries a key object — a
private copy made even for a null key or key length 0 — so the key reads
the router performs when invoking the pluggable partitioner on the
unassigned branch are defined and yield exactly the constructed key's
data and length. -/
theorem c10_key_always_present (rkt : rd_kafka_topic_t)
    (now force_partition : Int) (msgflags : MsgFlags) (payload len : Nat)
    (key : Option (List Nat)) (keylen : Nat) (msg_opq : Nat) (st : KState)
    (hsize : len + keylen ≤ rkt.max_msg_size)
    (hadm : st.msg_cnt + 1 ≤ rkt.queue_buffering_max_msgs) :
    (rd_kafka_msg_new rkt now force_partition msgflags payload len key keylen
        msg_opq st).allocated =
      some (producedMsg rkt now force_partition msgflags payload len key keylen msg_opq) ∧
    (producedMsg rkt now force_partition msgflags payload len key keylen
        msg_opq).rkm_key = some (rd_kafkap_bytes_new key keylen) ∧
    Option.isSome (producedMsg rkt now force_partition msgflags payload len key keylen
        msg_opq).rkm_key = true ∧
    rkmKeyData (producedMsg rkt now force_partition msgflags payload len key keylen
        msg_opq) = (rd_kafkap_bytes_new key keylen).data ∧
    rkmKeyLen (producedMsg rkt now force_partition msgflags payload len key keylen
        msg_opq) = (rd_kafkap_bytes_new key keylen).len ∧
    (∀ rkt2 : rd_kafka_topic_t, rkt2.rkt_partition_cnt ≠ 0 →
      force_partition = RD_KAFKA_PARTITION_UA →
      chooseInitialPartition rkt2
          (producedMsg rkt now force_partition msgflags payload len key keylen msg_opq) =
        rkt2.partitioner (rd_kafkap_bytes_new key keylen).data
          (rd_kafkap_bytes_new key keylen).len rkt2.rkt_partition_cnt) := by
  refine ⟨?_, rfl, rfl, rfl, rfl, ?_⟩
  · unfold rd_kafka_msg_new
    rw [if_neg (size_check_passes len keylen rkt.max_msg_size hsize), if_neg (by omega)]
    unfold routeOutcome
    rcases hres : rd_kafka_msg_partitioner rkt
      (producedMsg rkt now force_partition msgflags payload len key keylen msg_opq)
      now { st with msg_cnt := st.msg_cnt + 1 } with ⟨oe, st2⟩
    cases oe <;> rfl
  · intro rkt2 hpc2 hfp
    unfold chooseInitialPartition
    rw [if_neg hpc2, if_pos (show
      (producedMsg rkt now force_partition msgflags payload len key keylen
        msg_opq).rkm_partition = RD_KAFKA_PARTITION_UA from hfp)]
    rfl

/-- C10 witness: the theorem instantiated with a null key (no key
pointer, key length 0) and the unassigned forced partition. -/
theorem c10_key_always_present_witness :
    (rd_kafka_msg_new staleTopic 0 RD_KAFKA_PARTITION_UA
        { f_free := false, f_copy := false } 7 10 none 0 0 emptyState).allocated =
      some (producedMsg staleTopic 0 RD_KAFKA_PARTITION_UA
        { f_free := false, f_copy := false } 7 10 none 0 0) ∧
    (producedMsg staleTopic 0 RD_KAFKA_PARTITION_UA
        { f_free := false, f_copy := false } 7 10 none 0 0).rkm_key =
      some (rd_kafkap_bytes_new none 0) ∧
    Option.isSome (producedMsg staleTopic 0 RD_KAFKA_PARTITION_UA
        { f_free := false, f_copy := false } 7 10 none 0 0).rkm_key = true ∧
    rkmKeyData (producedMsg staleTopic 0 RD_KAFKA_PARTITION_UA
        { f_free := false, f_copy := false } 7 10 none 0 0) =
      (rd_kafkap_bytes_new none 0).data ∧
    rkmKeyLen (producedMsg staleTopic 0 RD_KAFKA_PARTITION_UA
        { f_free := false, f_copy := false } 7 10 none 0 0) =
      (rd_kafkap_bytes_new none 0).len ∧
    (∀ rkt2 : rd_kafka_topic_t, rkt2.rkt_partition_cnt ≠ 0 →
      RD_KAFKA_PARTITION_UA = RD_KAFKA_PARTITION_UA →
      chooseInitialPartition rkt2
          (producedMsg staleTopic 0 RD_KAFKA_PARTITION_UA
            { f_free := false, f_copy := false } 7 10 none 0 0) =
        rkt2.partitioner (rd_kafkap_bytes_new none 0).data
          (rd_kafkap_bytes_new none 0).len rkt2.rkt_partition_cnt) :=
  c10_key_always_present staleTopic 0 RD_KAFKA_PARTITION_UA
    { f_free := false, f_copy := false } 7 10 none 0 0 emptyState (by decide) (by decide)
